import Mathlib

/-!
Verification of the thread-preparation / usage-limit service layer
(`src/ai/service.ts`) of the chat application, as a shallow embedding.

Conventions of the embedding:
* The database is an explicit `DB` value; each query-layer call becomes a
  pure function on `DB`.  Operations of the external query layer (which is
  out of scope for this repository) are modelled from the spec, as noted in
  their doc comments.
* An effect that can fail is `Except APIError`.  The service wraps its
  mutating flows in a database transaction, so a failing flow returns
  `Except.error e` and no new `DB` value: the transaction rolled back and
  the caller's state is unchanged.
* Timestamps are integers; only their ordering matters to the code.
-/

namespace Spec2Proof

/-- Status of a thread: the source stores `'ready' | 'streaming'`. -/
inductive ThreadStatus where
  | ready
  | streaming
  deriving DecidableEq, Repr

/-- A row of the `thread` table (id, owning user, status, stream id, title,
timestamps), following the data model of the source. -/
structure Thread where
  id : String
  userId : String
  status : ThreadStatus
  streamId : Option String
  title : String
  createdAt : Int
  updatedAt : Int
  deriving DecidableEq, Repr

/-- One content part of a UI message.  The source distinguishes `file`
parts (carrying a media type and a url) from every other part type, which
the service never inspects beyond its tag; non-file parts are collapsed
into `text` and `other`. -/
inductive MessagePart where
  | text (text : String)
  | file (mediaType : String) (url : String)
  | other (type : String)
  deriving DecidableEq, Repr

/-- A UI `ThreadMessage`: an id together with ordered content parts. -/
structure ThreadMessage where
  id : String
  parts : List MessagePart
  deriving DecidableEq, Repr

/-- A persisted message row: id, thread reference, author, content, and
timestamps. -/
structure MessageRow where
  id : String
  threadId : String
  userId : String
  message : ThreadMessage
  createdAt : Int
  updatedAt : Int
  deriving DecidableEq, Repr

/-- A row of the model catalogue: id and per-call credit cost. -/
structure Model where
  id : String
  credits : Int
  deriving DecidableEq, Repr

/-- Per-user settings row; read-only in this flow, only presence matters. -/
structure Settings where
  userId : String
  deriving DecidableEq, Repr

/-- Per-user usage counters; `credits` is nullable in the source
(`usage.credits || 0`). -/
structure Usage where
  userId : String
  credits : Option Int
  deriving DecidableEq, Repr

/-- A billing subscription; `currentPeriodEnd` is optional, matching the
optional chaining `customer?.subscription?.currentPeriodEnd` of the source. -/
structure Subscription where
  currentPeriodEnd : Option Int
  deriving DecidableEq, Repr

/-- A customer record; the subscription itself is optional. -/
structure Customer where
  userId : String
  subscription : Option Subscription
  deriving DecidableEq, Repr

/-- Tier tag distinguishing the three limit configurations. -/
inductive Tier where
  | anonymous
  | free
  | pro
  deriving DecidableEq, Repr

/-- A limit configuration: its tier and its credit ceiling. -/
structure Limits where
  tier : Tier
  CREDITS : Int
  deriving DecidableEq, Repr

/-- Modelled from the spec: external configuration constant.  The spec fixes
only `Anonymous < Free < Pro` for the ceilings and the scenario "anonymous
user, tier ceiling 10", so the anonymous ceiling is 10. -/
def AnonymousLimits : Limits := { tier := .anonymous, CREDITS := 10 }

/-- Modelled from the spec: external configuration constant (free tier);
its exact ceiling is unspecified, only `Anonymous < Free < Pro`. -/
def FreeLimits : Limits := { tier := .free, CREDITS := 50 }

/-- Modelled from the spec: external configuration constant (pro tier);
its exact ceiling is unspecified, only `Anonymous < Free < Pro`. -/
def ProLimits : Limits := { tier := .pro, CREDITS := 500 }

/-- The subscription end-timestamp reached by the source's optional chain
`customer?.subscription?.currentPeriodEnd` (before the `?? 0` default). -/
def subscriptionEnd (customer : Option Customer) : Option Int :=
  (customer.bind (fun c => c.subscription)).bind (fun s => s.currentPeriodEnd)

/-- `getLimits` of `service.ts`: the absent end-timestamp defaults to `0`
(`?? 0`), `isPro` is `currentPeriodEnd > now`, and the tier is selected by
an exhaustive match on `{isPro, isAnonymous}` whose `otherwise` fallback
(reached exactly by `{isPro := true, isAnonymous := true}`) yields
`AnonymousLimits`.  `now` is the current time in seconds, computed by the
source at call time and passed here explicitly. -/
def getLimits (customer : Option Customer) (isAnonymous : Bool) (now : Int) : Limits :=
  let currentPeriodEnd : Int := (subscriptionEnd customer).getD 0
  let isPro : Bool := decide (now < currentPeriodEnd)
  match isPro, isAnonymous with
  | true, false => ProLimits
  | false, false => FreeLimits
  | false, true => AnonymousLimits
  | true, true => AnonymousLimits

/-- C1: `getLimits` returns the Pro tier iff a subscription end-timestamp
exists, is strictly greater than the current time, and the caller is not
anonymous; it returns the Free tier when the caller is not pro and not
anonymous; and it returns the Anonymous tier in every other case, including
the unmatched combination `{isPro := true, isAnonymous := true}`, so for an
absent or elapsed end-timestamp the result is never the Pro tier. -/
theorem claim_C1 (customer : Option Customer) (isAnonymous : Bool) (now : Int)
    (hnow : 0 ≤ now) :
    (getLimits customer isAnonymous now = ProLimits ↔
      ((∃ v, subscriptionEnd customer = some v ∧ now < v) ∧ isAnonymous = false)) ∧
    ((¬ ∃ v, subscriptionEnd customer = some v ∧ now < v) → isAnonymous = false →
      getLimits customer isAnonymous now = FreeLimits) ∧
    (isAnonymous = true → getLimits customer isAnonymous now = AnonymousLimits) := by
  cases hend : subscriptionEnd customer with
  | none =>
    have hnp : ¬ now < (0 : Int) := by omega
    cases isAnonymous <;>
      simp [getLimits, hend, hnp, ProLimits, FreeLimits, AnonymousLimits]
  | some v =>
    by_cases hv : now < v
    · cases isAnonymous <;>
        simp [getLimits, hend, hv, ProLimits, FreeLimits, AnonymousLimits]
    · cases isAnonymous <;>
        simp [getLimits, hend, hv, ProLimits, FreeLimits, AnonymousLimits]

/-- Concrete instance of C1: a customer whose subscription ends at time 100,
queried at time 0 by a non-anonymous caller, lands in the Pro tier. -/
theorem claim_C1_witness :
    getLimits (some { userId := "u1", subscription := some { currentPeriodEnd := some 100 } })
      false 0 = ProLimits :=
  (claim_C1 (some { userId := "u1", subscription := some { currentPeriodEnd := some 100 } })
    false 0 (by decide)).1.mpr ⟨⟨100, rfl, by decide⟩, rfl⟩

/-- The database state visible to this service: the tables its queries
touch. -/
structure DB where
  threads : List Thread
  messages : List MessageRow
  models : List Model
  settings : List Settings
  usages : List Usage
  customers : List Customer
  deriving DecidableEq, Repr

/-- A typed service error: HTTP-style status code and message, as raised by
`new APIError({status, message})` in the source. -/
structure APIError where
  status : Nat
  message : String
  deriving DecidableEq, Repr

/-- Query-layer read `getThreadById`: the thread row with the given id,
if any. -/
def getThreadById (db : DB) (threadId : String) : Option Thread :=
  db.threads.find? (fun t => t.id == threadId)

/-- Query-layer read `getMessageById`: the message row with the given id,
if any. -/
def getMessageById (db : DB) (messageId : String) : Option MessageRow :=
  db.messages.find? (fun m => m.id == messageId)

/-- Query-layer read `getModelById`. -/
def getModelById (db : DB) (modelId : String) : Option Model :=
  db.models.find? (fun m => m.id == modelId)

/-- Query-layer read `getSettingsByUserId`. -/
def getSettingsByUserId (db : DB) (userId : String) : Option Settings :=
  db.settings.find? (fun s => s.userId == userId)

/-- Query-layer read `getUsageByUserId`. -/
def getUsageByUserId (db : DB) (userId : String) : Option Usage :=
  db.usages.find? (fun u => u.userId == userId)

/-- Query-layer read `getUserCustomerByUserId`. -/
def getUserCustomerByUserId (db : DB) (userId : String) : Option Customer :=
  db.customers.find? (fun c => c.userId == userId)

/-- Modelled from the spec: query-layer write `createThread` (the query
layer is outside this repository).  A thread row is "created lazily on
first use"; a fresh thread starts in `ready` status with no stream id and
no title, per the data-model invariant of at most one active stream. -/
def createThread (db : DB) (threadId userId : String) (now : Int) : Thread × DB :=
  let t : Thread :=
    { id := threadId, userId := userId, status := .ready, streamId := none,
      title := "", createdAt := now, updatedAt := now }
  (t, { db with threads := db.threads ++ [t] })

/-- Modelled from the spec: query-layer write `updateThread`.  Sets status
and stream id of every row with the given id; `updatedAt` is updated only
when the caller passes it (the source sometimes omits that field). -/
def updateThread (db : DB) (threadId : String) (status : ThreadStatus)
    (streamId : Option String) (updatedAt : Option Int) : DB :=
  { db with
    threads := db.threads.map (fun t =>
      if t.id == threadId then
        { t with status := status, streamId := streamId,
                 updatedAt := updatedAt.getD t.updatedAt }
      else t) }

/-- Modelled from the spec: query-layer write `updateMessage`.  Replaces the
content of every row with the given message id and stamps `updatedAt`;
`createdAt`, thread and author are untouched. -/
def updateMessage (db : DB) (messageId : String) (message : ThreadMessage)
    (updatedAt : Int) : DB :=
  { db with
    messages := db.messages.map (fun m =>
      if m.id == messageId then
        { m with message := message, updatedAt := updatedAt }
      else m) }

/-- Modelled from the spec: query-layer write `deleteTrailingMessages`.
"Editing a message deletes all later messages in the thread": every row of
the given thread whose `createdAt` is strictly after the edited row's is
removed. -/
def deleteTrailingMessages (db : DB) (threadId : String) (messageId : String)
    (messageCreatedAt : Int) : DB :=
  { db with
    messages := db.messages.filter (fun m =>
      !(m.threadId == threadId && messageCreatedAt < m.createdAt)) }

/-- Modelled from the spec: query-layer write `createMessage`.  Appends a
row for the given thread and author carrying the UI message (whose id
becomes the row id, since the source later finds it via
`getMessageById(args.message.id)`). -/
def createMessage (db : DB) (threadId userId : String) (message : ThreadMessage)
    (now : Int) : MessageRow × DB :=
  let row : MessageRow :=
    { id := message.id, threadId := threadId, userId := userId,
      message := message, createdAt := now, updatedAt := now }
  (row, { db with messages := db.messages ++ [row] })

/-- Modelled from the spec: query-layer read `getThreadMessageHistory`: the
full message history of one thread. -/
def getThreadMessageHistory (db : DB) (threadId : String) : List MessageRow :=
  db.messages.filter (fun m => m.threadId == threadId)

/-- Arguments of `prepareThreadContext`. -/
structure PrepareArgs where
  isAnonymous : Bool
  userId : String
  threadId : String
  streamId : String
  modelId : String
  message : ThreadMessage
  deriving DecidableEq, Repr

/-- The assembled context returned on success. -/
structure PrepareResult where
  model : Model
  history : List MessageRow
  settings : Settings
  usage : Usage
  limits : Limits
  thread : Thread
  deriving DecidableEq, Repr

/-- `prepareThreadContext` of `service.ts`, run at time `now`.  The six
reads are issued concurrently against the initial state; the guards then
run in source order: missing settings → 404, missing usage → 404, missing
model → 404, absent thread → create it, `streaming` status → 400, foreign
owner → 403, negative remaining credits → 403.  On the success path the
thread is switched to `streaming` with the new stream id, the target
message is either updated-and-truncated (edit) or created (append) — the
concurrent update/truncate pair is linearised, which is order-independent
because the truncation never removes the edited row — and the history is
reloaded.  The whole flow runs in one transaction, so a failure returns
`Except.error` and no state: the rollback leaves the caller's `DB`
unchanged. -/
def prepareThreadContext (db : DB) (now : Int) (args : PrepareArgs) :
    Except APIError (PrepareResult × DB) :=
  let thread? := getThreadById db args.threadId
  let message? := getMessageById db args.message.id
  let model? := getModelById db args.modelId
  let settings? := getSettingsByUserId db args.userId
  let usage? := getUsageByUserId db args.userId
  let customer? := getUserCustomerByUserId db args.userId
  match settings? with
  | none => .error { status := 404, message := "Settings for user (userId) does not exist" }
  | some settings =>
    match usage? with
    | none => .error { status := 404, message := "Usage for user (userId) does not exist" }
    | some usage =>
      match model? with
      | none => .error { status := 404, message := "Model with (modelId) does not exist" }
      | some model =>
        let created := match thread? with
          | none => createThread db args.threadId args.userId now
          | some t => (t, db)
        let thread := created.1
        let db1 := created.2
        if thread.status = .streaming then
          .error { status := 400, message := "Thread is already streaming" }
        else if thread.userId ≠ args.userId then
          .error { status := 403, message := "User is not the owner of the thread" }
        else
          let limits := getLimits customer? args.isAnonymous now
          if limits.CREDITS - (usage.credits.getD 0) - model.credits < 0 then
            .error { status := 403, message := "You have reached your credit limit." }
          else
            let db2 := updateThread db1 args.threadId .streaming (some args.streamId) (some now)
            let db3 := match message? with
              | some stored =>
                updateMessage
                  (deleteTrailingMessages db2 args.threadId args.message.id stored.createdAt)
                  args.message.id args.message now
              | none => (createMessage db2 args.threadId args.userId args.message now).2
            let history := getThreadMessageHistory db3 args.threadId
            .ok ({ model := model, history := history, settings := settings,
                   usage := usage, limits := limits, thread := thread }, db3)

/-- `prepareResumeThreadContext` of `service.ts`: validates the thread and
returns its stream id for reattachment.  Guard order as in the source:
missing thread → 404, foreign owner → 403, status other than `streaming`
→ 400, no recorded stream id → 404 (message "Thread is not streaming"). -/
def prepareResumeThreadContext (db : DB) (threadId userId : String) :
    Except APIError String :=
  match getThreadById db threadId with
  | none => .error { status := 404, message := "Thread not found" }
  | some thread =>
    if thread.userId ≠ userId then
      .error { status := 403, message := "User is not the owner of the thread" }
    else if thread.status ≠ .streaming then
      .error { status := 400, message := "Thread is not streaming" }
    else
      match thread.streamId with
      | none => .error { status := 404, message := "Thread is not streaming" }
      | some sid => .ok sid

/-- Modelled from the spec: query-layer writes `createMessage` and
`updateThread` composed by `saveMessageAndResetThreadStatus` of
`service.ts`, inside one transaction: the message is created in the thread
and the thread is reset to `ready` with its stream id cleared to null (the
two independent writes are linearised).  `updatedAt` is not passed by this
call site. -/
def saveMessageAndResetThreadStatus (db : DB) (threadId userId : String)
    (message : ThreadMessage) (now : Int) : DB :=
  let db1 := (createMessage db threadId userId message now).2
  updateThread db1 threadId .ready none none

/-- `List.find?` commutes with mapping an id-preserving function over the
thread table. -/
theorem find?_map_of_id_eq (l : List Thread) (threadId : String) (f : Thread → Thread)
    (hid : ∀ t, (f t).id = t.id) :
    (l.map f).find? (fun t => t.id == threadId) =
      (l.find? (fun t => t.id == threadId)).map f := by
  induction l with
  | nil => rfl
  | cons a l ih =>
    simp only [List.map_cons, List.find?_cons, hid]
    cases h : (a.id == threadId) <;> simp [h, ih]

/-- Reading back a thread after `updateThread` on its id yields the row
with the new status, stream id and (when passed) timestamp. -/
theorem getThreadById_updateThread (db : DB) (threadId : String) (status : ThreadStatus)
    (streamId : Option String) (updatedAt : Option Int) (t : Thread)
    (h : getThreadById db threadId = some t) :
    getThreadById (updateThread db threadId status streamId updatedAt) threadId =
      some { t with status := status, streamId := streamId,
                    updatedAt := updatedAt.getD t.updatedAt } := by
  have h' : List.find? (fun u => u.id == threadId) db.threads = some t := h
  have ht : (t.id == threadId) = true := by simpa using List.find?_some h'
  have key := find?_map_of_id_eq db.threads threadId
      (fun u => if u.id == threadId then
          { u with status := status, streamId := streamId,
                   updatedAt := updatedAt.getD u.updatedAt }
        else u)
      (by intro u; by_cases hu : (u.id == threadId) = true <;> simp [hu])
  refine key.trans ?_
  rw [h']
  simp only [Option.map_some', if_pos ht]

/-- C2 (amendable core of the credit gate): with settings, usage and model
present and a `ready` thread owned by the caller, `prepareThreadContext`
fails with the 403 credit-limit error exactly when
`limit - consumed - cost < 0` (the rolled-back transaction leaving the
state, hence the `ready` status, unchanged), and otherwise — including the
boundary `= 0` — succeeds with the thread switched to `streaming` and the
new stream id recorded. -/
theorem claim_C2 (db : DB) (now : Int) (args : PrepareArgs)
    (thread : Thread) (settings : Settings) (usage : Usage) (model : Model)
    (ht : getThreadById db args.threadId = some thread)
    (hs : getSettingsByUserId db args.userId = some settings)
    (hu : getUsageByUserId db args.userId = some usage)
    (hm : getModelById db args.modelId = some model)
    (hready : thread.status = .ready)
    (howner : thread.userId = args.userId) :
    ((getLimits (getUserCustomerByUserId db args.userId) args.isAnonymous now).CREDITS
        - usage.credits.getD 0 - model.credits < 0 →
      prepareThreadContext db now args =
        .error { status := 403, message := "You have reached your credit limit." }) ∧
    (0 ≤ (getLimits (getUserCustomerByUserId db args.userId) args.isAnonymous now).CREDITS
        - usage.credits.getD 0 - model.credits →
      ∃ res db', prepareThreadContext db now args = .ok (res, db') ∧
        getThreadById db' args.threadId =
          some { thread with status := .streaming, streamId := some args.streamId,
                             updatedAt := now }) := by
  constructor
  · intro hneg
    simp [prepareThreadContext, ht, hs, hu, hm, hready, howner, hneg]
  · intro hpos
    have hneg : ¬ ((getLimits (getUserCustomerByUserId db args.userId) args.isAnonymous now).CREDITS
        - usage.credits.getD 0 - model.credits < 0) := not_lt.mpr hpos
    cases hres : prepareThreadContext db now args with
    | error e =>
      exfalso
      cases hmsg : getMessageById db args.message.id <;>
        simp [prepareThreadContext, ht, hs, hu, hm, hmsg, hready, howner, hneg] at hres
    | ok p =>
      obtain ⟨res, db'⟩ := p
      refine ⟨res, db', rfl, ?_⟩
      have hthreads : db'.threads =
          (updateThread db args.threadId .streaming (some args.streamId) (some now)).threads := by
        cases hmsg : getMessageById db args.message.id <;>
          simp [prepareThreadContext, ht, hs, hu, hm, hmsg, hready, howner, hneg] at hres <;>
          (rw [← hres.2]; rfl)
      have hg : getThreadById db' args.threadId =
          getThreadById (updateThread db args.threadId .streaming (some args.streamId)
            (some now)) args.threadId := by
        unfold getThreadById
        rw [hthreads]
      rw [hg]
      exact getThreadById_updateThread db args.threadId .streaming
        (some args.streamId) (some now) thread ht

/-- C3 (amended): provided settings, usage and model are present, a fetched
thread in `streaming` status makes `prepareThreadContext` fail with the
conflict (400) "already streaming" error, regardless of the remaining
inputs.  (When settings, usage or model is absent, the corresponding 404
fires first instead: see the counterexample.) -/
theorem claim_C3 (db : DB) (now : Int) (args : PrepareArgs)
    (thread : Thread) (settings : Settings) (usage : Usage) (model : Model)
    (ht : getThreadById db args.threadId = some thread)
    (hs : getSettingsByUserId db args.userId = some settings)
    (hu : getUsageByUserId db args.userId = some usage)
    (hm : getModelById db args.modelId = some model)
    (hstream : thread.status = .streaming) :
    prepareThreadContext db now args =
      .error { status := 400, message := "Thread is already streaming" } := by
  simp [prepareThreadContext, ht, hs, hu, hm, hstream]

/-- Thread used by the C3 witness: already streaming. -/
def exThreadC3w : Thread :=
  { id := "t1", userId := "u1", status := .streaming, streamId := some "s0",
    title := "", createdAt := 0, updatedAt := 0 }

/-- Fully populated database used by the C3 witness. -/
def exDbC3w : DB :=
  { threads := [exThreadC3w], messages := [],
    models := [{ id := "m1", credits := 5 }],
    settings := [{ userId := "u1" }],
    usages := [{ userId := "u1", credits := some 0 }],
    customers := [] }

/-- Request used by the C3 witness. -/
def exArgsC3w : PrepareArgs :=
  { isAnonymous := true, userId := "u1", threadId := "t1", streamId := "s1",
    modelId := "m1", message := { id := "msg1", parts := [] } }

/-- Concrete instance of the amended C3: with everything present and the
thread streaming, preparation fails with the conflict error. -/
theorem claim_C3_witness :
    prepareThreadContext exDbC3w 0 exArgsC3w =
      .error { status := 400, message := "Thread is already streaming" } :=
  claim_C3 exDbC3w 0 exArgsC3w exThreadC3w { userId := "u1" }
    { userId := "u1", credits := some 0 } { id := "m1", credits := 5 } rfl rfl rfl rfl rfl

/-- Streaming thread for the C3 counterexample. -/
def exThreadC3 : Thread :=
  { id := "t1", userId := "u1", status := .streaming, streamId := some "s0",
    title := "", createdAt := 0, updatedAt := 0 }

/-- Database for the C3 counterexample: the thread is streaming but the
caller has no settings row. -/
def exDbC3 : DB :=
  { threads := [exThreadC3], messages := [], models := [], settings := [],
    usages := [], customers := [] }

/-- Request for the C3 counterexample. -/
def exArgsC3 : PrepareArgs :=
  { isAnonymous := false, userId := "u1", threadId := "t1", streamId := "s1",
    modelId := "m1", message := { id := "msg1", parts := [] } }

/-- C3 as stated is false: with the fetched thread in `streaming` status but
the caller's settings row absent, `prepareThreadContext` returns the 404
settings error, not the conflict (400) "already streaming" error — the
missing-settings check fires first. -/
theorem claim_C3_counterexample :
    getThreadById exDbC3 exArgsC3.threadId = some exThreadC3 ∧
    exThreadC3.status = .streaming ∧
    prepareThreadContext exDbC3 0 exArgsC3 =
      .error { status := 404, message := "Settings for user (userId) does not exist" } ∧
    prepareThreadContext exDbC3 0 exArgsC3 ≠
      .error { status := 400, message := "Thread is already streaming" } := by
  refine ⟨rfl, rfl, rfl, ?_⟩
  have hres : prepareThreadContext exDbC3 0 exArgsC3 =
      .error { status := 404, message := "Settings for user (userId) does not exist" } := rfl
  rw [hres]
  simp

/-- C4 (amended): provided settings, usage and model are present and the
fetched thread is not in `streaming` status, a caller who is not the
thread's owner makes `prepareThreadContext` fail with the ownership (403)
error; the failing transaction performs no mutation (its rollback returns
no new state).  (For a streaming thread the conflict (400) error fires
first instead: see the counterexample.) -/
theorem claim_C4 (db : DB) (now : Int) (args : PrepareArgs)
    (thread : Thread) (settings : Settings) (usage : Usage) (model : Model)
    (ht : getThreadById db args.threadId = some thread)
    (hs : getSettingsByUserId db args.userId = some settings)
    (hu : getUsageByUserId db args.userId = some usage)
    (hm : getModelById db args.modelId = some model)
    (hstream : thread.status ≠ .streaming)
    (hown : thread.userId ≠ args.userId) :
    prepareThreadContext db now args =
      .error { status := 403, message := "User is not the owner of the thread" } := by
  simp [prepareThreadContext, ht, hs, hu, hm, hstream, hown]

/-- Thread used by the C4 witness: ready, owned by `u2`. -/
def exThreadC4w : Thread :=
  { id := "t1", userId := "u2", status := .ready, streamId := none,
    title := "", createdAt := 0, updatedAt := 0 }

/-- Database used by the C4 witness. -/
def exDbC4w : DB :=
  { threads := [exThreadC4w], messages := [],
    models := [{ id := "m1", credits := 5 }],
    settings := [{ userId := "u1" }],
    usages := [{ userId := "u1", credits := some 0 }],
    customers := [] }

/-- Request used by the C4 witness: caller `u1` on `u2`'s thread. -/
def exArgsC4w : PrepareArgs :=
  { isAnonymous := true, userId := "u1", threadId := "t1", streamId := "s1",
    modelId := "m1", message := { id := "msg1", parts := [] } }

/-- Concrete instance of the amended C4: a non-owner on a ready thread gets
the ownership error. -/
theorem claim_C4_witness :
    prepareThreadContext exDbC4w 0 exArgsC4w =
      .error { status := 403, message := "User is not the owner of the thread" } :=
  claim_C4 exDbC4w 0 exArgsC4w exThreadC4w { userId := "u1" }
    { userId := "u1", credits := some 0 } { id := "m1", credits := 5 } rfl rfl rfl rfl
    (by decide) (by decide)

/-- Streaming thread owned by `u2`, for the C4 counterexample. -/
def exThreadC4 : Thread :=
  { id := "t1", userId := "u2", status := .streaming, streamId := some "s0",
    title := "", createdAt := 0, updatedAt := 0 }

/-- Database for the C4 counterexample: everything present, the thread is
streaming and owned by someone else. -/
def exDbC4 : DB :=
  { threads := [exThreadC4], messages := [],
    models := [{ id := "m1", credits := 5 }],
    settings := [{ userId := "u1" }],
    usages := [{ userId := "u1", credits := some 0 }],
    customers := [] }

/-- Request for the C4 counterexample: caller `u1` on `u2`'s streaming
thread. -/
def exArgsC4 : PrepareArgs :=
  { isAnonymous := false, userId := "u1", threadId := "t1", streamId := "s1",
    modelId := "m1", message := { id := "msg1", parts := [] } }

/-- C4 as stated is false: for a caller who does not own the fetched thread,
when that thread is in `streaming` status the call fails with the conflict
(400) error — the streaming check precedes the ownership check — not with
the ownership (403) error. -/
theorem claim_C4_counterexample :
    getThreadById exDbC4 exArgsC4.threadId = some exThreadC4 ∧
    exThreadC4.userId ≠ exArgsC4.userId ∧
    prepareThreadContext exDbC4 0 exArgsC4 =
      .error { status := 400, message := "Thread is already streaming" } ∧
    prepareThreadContext exDbC4 0 exArgsC4 ≠
      .error { status := 403, message := "User is not the owner of the thread" } := by
  refine ⟨rfl, by decide, rfl, ?_⟩
  have hres : prepareThreadContext exDbC4 0 exArgsC4 =
      .error { status := 400, message := "Thread is already streaming" } := rfl
  rw [hres]
  simp

/-- After the update/truncate pair of the edit path, no message of the
thread postdates the edited row, and every row carrying the edited id holds
the supplied content. -/
theorem updated_db_messages_bound (db2 : DB) (threadId messageId : String)
    (msg : ThreadMessage) (cAt now : Int) :
    (∀ m ∈ (updateMessage (deleteTrailingMessages db2 threadId messageId cAt)
        messageId msg now).messages, m.threadId = threadId → m.createdAt ≤ cAt) ∧
    (∀ m ∈ (updateMessage (deleteTrailingMessages db2 threadId messageId cAt)
        messageId msg now).messages, m.id = messageId → m.message = msg) := by
  constructor
  · intro m hm hmt
    simp only [updateMessage, deleteTrailingMessages, List.mem_map, List.mem_filter] at hm
    obtain ⟨m₀, ⟨hm₀, hp⟩, hf⟩ := hm
    have hp' : ¬m₀.threadId = threadId ∨ m₀.createdAt ≤ cAt := by simpa using hp
    have hthread : m.threadId = m₀.threadId := by
      by_cases h0 : (m₀.id == messageId) = true
      · rw [if_pos h0] at hf
        rw [← hf]
      · rw [if_neg h0] at hf
        rw [← hf]
    have hcreated : m.createdAt = m₀.createdAt := by
      by_cases h0 : (m₀.id == messageId) = true
      · rw [if_pos h0] at hf
        rw [← hf]
      · rw [if_neg h0] at hf
        rw [← hf]
    rw [hcreated]
    rw [hthread] at hmt
    rcases hp' with hne | hle
    · exact absurd hmt hne
    · exact hle
  · intro m hm hid
    simp only [updateMessage, deleteTrailingMessages, List.mem_map, List.mem_filter] at hm
    obtain ⟨m₀, ⟨hm₀, hp⟩, hf⟩ := hm
    by_cases h0 : (m₀.id == messageId) = true
    · rw [if_pos h0] at hf
      rw [← hf]
    · rw [if_neg h0] at hf
      rw [← hf] at hid ⊢
      exact absurd hid (by simpa using h0)

/-- C5: on every successful `prepareThreadContext` call whose target message
already exists (the edit case), the stored message is updated to the
supplied content and all messages of the thread created strictly after the
stored row's `createdAt` are deleted (`deleteTrailingMessages` invoked with
that thread id, message id and stored timestamp); the concurrent
update/truncate pair is linearised here, which is order-independent since
the truncation never touches the edited row. -/
theorem claim_C5 (db : DB) (now : Int) (args : PrepareArgs)
    (stored : MessageRow) (res : PrepareResult) (db' : DB)
    (hmsg : getMessageById db args.message.id = some stored)
    (hok : prepareThreadContext db now args = .ok (res, db')) :
    (∀ m ∈ db'.messages, m.threadId = args.threadId → m.createdAt ≤ stored.createdAt) ∧
    (∀ m ∈ db'.messages, m.id = args.message.id → m.message = args.message) := by
  cases hs : getSettingsByUserId db args.userId with
  | none => simp [prepareThreadContext, hs] at hok
  | some settings =>
    cases hu : getUsageByUserId db args.userId with
    | none => simp [prepareThreadContext, hs, hu] at hok
    | some usage =>
      cases hm : getModelById db args.modelId with
      | none => simp [prepareThreadContext, hs, hu, hm] at hok
      | some model =>
        cases hth : getThreadById db args.threadId with
        | none =>
          by_cases h3 : (getLimits (getUserCustomerByUserId db args.userId)
              args.isAnonymous now).CREDITS - usage.credits.getD 0 - model.credits < 0
          · simp [prepareThreadContext, hs, hu, hm, hth, hmsg, createThread, h3] at hok
          · simp [prepareThreadContext, hs, hu, hm, hth, hmsg, createThread, h3] at hok
            rw [← hok.2]
            exact updated_db_messages_bound _ args.threadId args.message.id
              args.message stored.createdAt now
        | some thread =>
          by_cases h1 : thread.status = ThreadStatus.streaming
          · simp [prepareThreadContext, hs, hu, hm, hth, hmsg, h1] at hok
          · by_cases h2 : thread.userId = args.userId
            · by_cases h3 : (getLimits (getUserCustomerByUserId db args.userId)
                  args.isAnonymous now).CREDITS - usage.credits.getD 0 - model.credits < 0
              · simp [prepareThreadContext, hs, hu, hm, hth, hmsg, h1, h2, h3] at hok
              · simp [prepareThreadContext, hs, hu, hm, hth, hmsg, h1, h2, h3] at hok
                rw [← hok.2]
                exact updated_db_messages_bound _ args.threadId args.message.id
                  args.message stored.createdAt now
            · simp [prepareThreadContext, hs, hu, hm, hth, hmsg, h1, h2] at hok

/-- Thread used by the C2 witness: ready, owned by the caller. -/
def exThreadC2 : Thread :=
  { id := "t1", userId := "u1", status := .ready, streamId := none,
    title := "", createdAt := 0, updatedAt := 0 }

/-- Database used by the C2 witness: the spec scenario of an anonymous user
with tier ceiling 10, existing usage 0 and a model costing 5 credits. -/
def exDbC2 : DB :=
  { threads := [exThreadC2], messages := [],
    models := [{ id := "m1", credits := 5 }],
    settings := [{ userId := "u1" }],
    usages := [{ userId := "u1", credits := some 0 }],
    customers := [] }

/-- Request used by the C2 witness. -/
def exArgsC2 : PrepareArgs :=
  { isAnonymous := true, userId := "u1", threadId := "t1", streamId := "s1",
    modelId := "m1", message := { id := "msg1", parts := [] } }

/-- Concrete instance of C2, the spec's success scenario: anonymous user,
ceiling 10, usage 0, cost 5 — the call succeeds and the thread ends up
`streaming` with the new stream id. -/
theorem claim_C2_witness :
    ∃ res db', prepareThreadContext exDbC2 0 exArgsC2 = .ok (res, db') ∧
      getThreadById db' exArgsC2.threadId =
        some { exThreadC2 with status := .streaming, streamId := some exArgsC2.streamId,
                               updatedAt := 0 } :=
  (claim_C2 exDbC2 0 exArgsC2 exThreadC2 { userId := "u1" }
    { userId := "u1", credits := some 0 } { id := "m1", credits := 5 }
    rfl rfl rfl rfl rfl rfl).2 (by decide)

/-- Stored message row edited by the C5 witness. -/
def exStoredC5 : MessageRow :=
  { id := "msg1", threadId := "t1", userId := "u1",
    message := { id := "msg1", parts := [.text "hi"] }, createdAt := 0, updatedAt := 0 }

/-- A later message row of the same thread, deleted by the C5 witness run. -/
def exTrailingC5 : MessageRow :=
  { id := "msg2", threadId := "t1", userId := "u1",
    message := { id := "msg2", parts := [.text "later"] }, createdAt := 5, updatedAt := 5 }

/-- Thread used by the C5 witness. -/
def exThreadC5 : Thread :=
  { id := "t1", userId := "u1", status := .ready, streamId := none,
    title := "", createdAt := 0, updatedAt := 0 }

/-- Database used by the C5 witness: a ready thread with an existing message
and one trailing message. -/
def exDbC5 : DB :=
  { threads := [exThreadC5], messages := [exStoredC5, exTrailingC5],
    models := [{ id := "m1", credits := 5 }],
    settings := [{ userId := "u1" }],
    usages := [{ userId := "u1", credits := some 0 }],
    customers := [] }

/-- Request used by the C5 witness: an edit of the stored message. -/
def exArgsC5 : PrepareArgs :=
  { isAnonymous := true, userId := "u1", threadId := "t1", streamId := "s1",
    modelId := "m1", message := { id := "msg1", parts := [.text "edited"] } }

/-- The database produced by the C5 witness run: thread streaming, trailing
message gone, stored message carrying the edited content. -/
def exDbC5' : DB :=
  { threads := [{ id := "t1", userId := "u1", status := .streaming, streamId := some "s1",
                  title := "", createdAt := 0, updatedAt := 7 }],
    messages := [{ id := "msg1", threadId := "t1", userId := "u1",
                   message := { id := "msg1", parts := [.text "edited"] },
                   createdAt := 0, updatedAt := 7 }],
    models := [{ id := "m1", credits := 5 }],
    settings := [{ userId := "u1" }],
    usages := [{ userId := "u1", credits := some 0 }],
    customers := [] }

/-- The context assembled by the C5 witness run. -/
def exResC5 : PrepareResult :=
  { model := { id := "m1", credits := 5 },
    history := [{ id := "msg1", threadId := "t1", userId := "u1",
                  message := { id := "msg1", parts := [.text "edited"] },
                  createdAt := 0, updatedAt := 7 }],
    settings := { userId := "u1" },
    usage := { userId := "u1", credits := some 0 },
    limits := AnonymousLimits,
    thread := exThreadC5 }

/-- Concrete instance of C5: editing `msg1` at time 7 truncates the trailing
`msg2` and stores the edited content. -/
theorem claim_C5_witness :
    (∀ m ∈ exDbC5'.messages, m.threadId = exArgsC5.threadId →
      m.createdAt ≤ exStoredC5.createdAt) ∧
    (∀ m ∈ exDbC5'.messages, m.id = exArgsC5.message.id →
      m.message = exArgsC5.message) :=
  claim_C5 exDbC5 7 exArgsC5 exStoredC5 exResC5 exDbC5' rfl rfl

/-- C6: `prepareResumeThreadContext` fails iff the thread is missing
(not-found, 404), or its owner differs from the caller (forbidden, 403), or
its status is not `streaming` — that failure being the conflict (400) error
of the taxonomy — or it has no recorded stream id (a 404 carrying the same
"not streaming" message); otherwise it returns the recorded stream id. -/
theorem claim_C6 (db : DB) (threadId userId : String) :
    ((∃ s, prepareResumeThreadContext db threadId userId = .ok s) ↔
      (∃ t, getThreadById db threadId = some t ∧ t.userId = userId ∧
        t.status = .streaming ∧ t.streamId ≠ none)) ∧
    (getThreadById db threadId = none →
      prepareResumeThreadContext db threadId userId =
        .error { status := 404, message := "Thread not found" }) ∧
    (∀ t, getThreadById db threadId = some t → t.userId ≠ userId →
      prepareResumeThreadContext db threadId userId =
        .error { status := 403, message := "User is not the owner of the thread" }) ∧
    (∀ t, getThreadById db threadId = some t → t.userId = userId →
      t.status ≠ .streaming →
      prepareResumeThreadContext db threadId userId =
        .error { status := 400, message := "Thread is not streaming" }) ∧
    (∀ t, getThreadById db threadId = some t → t.userId = userId →
      t.status = .streaming → t.streamId = none →
      prepareResumeThreadContext db threadId userId =
        .error { status := 404, message := "Thread is not streaming" }) ∧
    (∀ t s, getThreadById db threadId = some t → t.userId = userId →
      t.status = .streaming → t.streamId = some s →
      prepareResumeThreadContext db threadId userId = .ok s) := by
  cases hth : getThreadById db threadId with
  | none => simp [prepareResumeThreadContext, hth]
  | some t =>
    by_cases howner : t.userId = userId
    · by_cases hstatus : t.status = ThreadStatus.streaming
      · cases hsid : t.streamId with
        | none =>
          simp [prepareResumeThreadContext, hth, howner, hstatus, hsid]
          rintro t' s rfl - -
          simp [hsid]
        | some s =>
          simp [prepareResumeThreadContext, hth, howner, hstatus, hsid]
          rintro t' s' rfl - - h
          rw [hsid] at h
          exact Option.some.inj h
      · simp [prepareResumeThreadContext, hth, howner, hstatus]
        rintro t' s rfl - hstr
        exact fun _ => absurd hstr hstatus
    · simp [prepareResumeThreadContext, hth, howner]
      rintro t' s rfl h1 -
      exact fun _ => absurd h1 howner

/-- Streaming thread with a recorded stream id, for the C6 witness. -/
def exThreadC6 : Thread :=
  { id := "t1", userId := "u1", status := .streaming, streamId := some "s1",
    title := "", createdAt := 0, updatedAt := 0 }

/-- Database used by the C6 witness. -/
def exDbC6 : DB :=
  { threads := [exThreadC6], messages := [], models := [], settings := [],
    usages := [], customers := [] }

/-- Concrete instance of C6: resuming the owner's streaming thread returns
its stream id. -/
theorem claim_C6_witness :
    prepareResumeThreadContext exDbC6 "t1" "u1" = .ok "s1" :=
  (claim_C6 exDbC6 "t1" "u1").2.2.2.2.2 exThreadC6 "s1" rfl rfl rfl rfl

/-- Delay in milliseconds slept before retry `k`:
`Schedule.exponential(Duration.millis(200))` doubles from a 200ms base. -/
def backoffDelayMs (k : Nat) : Nat := 200 * 2 ^ k

/-- `Effect.catchAll(() => Effect.succeed(fallback))`: any failure is
replaced by success with `fallback`. -/
def catchAllSucceed {ε ε' α : Type} (e : Except ε α) (fallback : α) : Except ε' α :=
  match e with
  | .ok a => .ok a
  | .error _ => .ok fallback

/-- `Effect.retry` with
`Schedule.exponential(200ms).pipe(Schedule.compose(Schedule.recurs(r)))`:
attempt `i` runs and, on failure, up to `r` further attempts follow, retry
`k` preceded by a `backoffDelayMs k` sleep.  Returns the outcome together
with the list of delays slept. -/
def retryExponential {ε α : Type} (attempts : Nat → Except ε α) :
    Nat → Nat → Except ε α × List Nat
  | i, 0 => (attempts i, [])
  | i, r + 1 =>
    match attempts i with
    | .ok a => (.ok a, [])
    | .error _ =>
      let rest := retryExponential attempts (i + 1) r
      (rest.1, backoffDelayMs i :: rest.2)

/-- `createResumableStream` of `service.ts`: registration of the stream
under its id is attempted, on failure retried 3 times with exponential
backoff from 200ms, and on exhaustion `catchAll` falls back to the original
stream object. -/
def createResumableStream {α : Type} (attempts : Nat → Except Unit α) (stream : α) :
    Except APIError α :=
  catchAllSucceed (retryExponential attempts 0 3).1 stream

/-- `getResumableStream` of `service.ts`: resumption by stream id under the
same retry policy; on exhaustion `catchAll` yields a null result (`none`).
An attempt may itself legitimately produce `none`. -/
def getResumableStream {α : Type} (attempts : Nat → Except Unit (Option α)) :
    Except APIError (Option α) :=
  catchAllSucceed (retryExponential attempts 0 3).1 none

/-- Four consecutive failures exhaust the retry schedule after sleeping
200ms, 400ms and 800ms. -/
theorem retryExponential_all_error3 {α : Type} (attempts : Nat → Except Unit α)
    (h0 : attempts 0 = .error ()) (h1 : attempts 1 = .error ())
    (h2 : attempts 2 = .error ()) (h3 : attempts 3 = .error ()) :
    retryExponential attempts 0 3 = (.error (), [200, 400, 800]) := by
  simp [retryExponential, h0, h1, h2, h3, backoffDelayMs]

/-- C7: the resumable-stream bridge is fail-open.  Neither wrapper can
produce an error; when registration fails on the initial attempt and on all
3 retries (slept at 200ms, 400ms, 800ms of exponential backoff),
`createResumableStream` succeeds with the original stream object, and under
the same exhaustion `getResumableStream` succeeds with a null result. -/
theorem claim_C7 {α : Type} (attemptsC : Nat → Except Unit α) (stream : α)
    (attemptsG : Nat → Except Unit (Option α)) :
    (∀ e, createResumableStream attemptsC stream ≠ .error e) ∧
    ((∀ i, i ≤ 3 → attemptsC i = .error ()) →
      createResumableStream attemptsC stream = .ok stream ∧
      (retryExponential attemptsC 0 3).2 = [200, 400, 800]) ∧
    (∀ e, getResumableStream attemptsG ≠ .error e) ∧
    ((∀ i, i ≤ 3 → attemptsG i = .error ()) →
      getResumableStream attemptsG = .ok none ∧
      (retryExponential attemptsG 0 3).2 = [200, 400, 800]) := by
  refine ⟨?_, ?_, ?_, ?_⟩
  · intro e
    unfold createResumableStream
    cases h : (retryExponential attemptsC 0 3).1 <;> simp [catchAllSucceed]
  · intro hfail
    have hall := retryExponential_all_error3 attemptsC (hfail 0 (by omega))
      (hfail 1 (by omega)) (hfail 2 (by omega)) (hfail 3 (by omega))
    constructor
    · unfold createResumableStream
      rw [hall]
      rfl
    · rw [hall]
  · intro e
    unfold getResumableStream
    cases h : (retryExponential attemptsG 0 3).1 <;> simp [catchAllSucceed]
  · intro hfail
    have hall := retryExponential_all_error3 attemptsG (hfail 0 (by omega))
      (hfail 1 (by omega)) (hfail 2 (by omega)) (hfail 3 (by omega))
    constructor
    · unfold getResumableStream
      rw [hall]
      rfl
    · rw [hall]

/-- Concrete instance of C7: with every attempt failing, registration falls
back to the original stream and the exhausted schedule slept 200/400/800ms. -/
theorem claim_C7_witness :
    createResumableStream (fun _ => (.error () : Except Unit Nat)) 42 = .ok 42 ∧
    (retryExponential (fun _ => (.error () : Except Unit Nat)) 0 3).2 = [200, 400, 800] :=
  (claim_C7 (fun _ => (.error () : Except Unit Nat)) 42
    (fun _ => (.error () : Except Unit (Option Nat)))).2.1 (fun _ _ => rfl)

/-- Observable steps of `generateThreadTitle`, in execution order. -/
inductive TitleEvent where
  | latchClose
  | persistTitle (title : String)
  | latchOpen
  deriving DecidableEq, Repr

/-- `generateThreadTitle` of `service.ts`, as a trace over the outcomes of
its two fallible steps: the latch is closed, the model call runs (its
failure replaced by an empty title via `catchAll`), the title is persisted
(failure swallowed via `catchAll`), and the latch is reopened.  Each bind
propagates an error, so the trace stops early iff a step actually fails;
the theorem shows neither can. -/
def generateThreadTitle (genOutcome : Except Unit String)
    (persistOutcome : Except Unit Unit) : List TitleEvent × Except Unit Unit :=
  let trace0 := [TitleEvent.latchClose]
  match catchAllSucceed genOutcome "" with
  | .error e => (trace0, .error e)
  | .ok text =>
    match (catchAllSucceed persistOutcome () : Except Unit Unit) with
    | .error e => (trace0 ++ [.persistTitle text], .error e)
    | .ok _ => (trace0 ++ [.persistTitle text, .latchOpen], .ok ())

/-- C8: `generateThreadTitle` closes the latch before any other step and
reopens it as its final step, and never fails: a failed model call is
replaced by an empty title and a failed persistence is swallowed, so for
every combination of outcomes the effect succeeds, the persisted title is
the generated text (or `""` on model failure), and the latch ends open. -/
theorem claim_C8 (genOutcome : Except Unit String) (persistOutcome : Except Unit Unit) :
    (generateThreadTitle genOutcome persistOutcome).2 = .ok () ∧
    (generateThreadTitle genOutcome persistOutcome).1.head? = some .latchClose ∧
    (generateThreadTitle genOutcome persistOutcome).1.getLast? = some .latchOpen ∧
    TitleEvent.persistTitle (match genOutcome with | .ok t => t | .error _ => "")
      ∈ (generateThreadTitle genOutcome persistOutcome).1 := by
  cases genOutcome <;> cases persistOutcome <;>
    simp [generateThreadTitle, catchAllSucceed]

/-- Concrete instance of C8: with both steps failing, the run still ends
`ok` with the latch reopened. -/
theorem claim_C8_witness :
    (generateThreadTitle (.error ()) (.error ())).2 = .ok () ∧
    (generateThreadTitle (.error ()) (.error ())).1.getLast? = some .latchOpen :=
  ⟨(claim_C8 (.error ()) (.error ())).1, (claim_C8 (.error ()) (.error ())).2.2.1⟩

/-- C9: `saveMessageAndResetThreadStatus` creates the message in the thread
and resets the thread to `ready` with its stream id cleared to null; both
writes run in one transaction (linearised here), restoring the at-most-one
active-stream state after a stream completes. -/
theorem claim_C9 (db : DB) (threadId userId : String) (message : ThreadMessage)
    (now : Int) :
    (∃ m ∈ (saveMessageAndResetThreadStatus db threadId userId message now).messages,
      m.threadId = threadId ∧ m.userId = userId ∧ m.message = message) ∧
    (∀ t ∈ (saveMessageAndResetThreadStatus db threadId userId message now).threads,
      t.id = threadId → t.status = .ready ∧ t.streamId = none) := by
  constructor
  · refine ⟨{ id := message.id, threadId := threadId, userId := userId,
              message := message, createdAt := now, updatedAt := now },
            ?_, rfl, rfl, rfl⟩
    simp [saveMessageAndResetThreadStatus, createMessage, updateThread]
  · intro t htmem hid
    simp only [saveMessageAndResetThreadStatus, updateThread, createMessage,
      List.mem_map] at htmem
    obtain ⟨t₀, ht₀, hf⟩ := htmem
    by_cases h0 : (t₀.id == threadId) = true
    · rw [if_pos h0] at hf
      rw [← hf]
      exact ⟨rfl, rfl⟩
    · rw [if_neg h0] at hf
      rw [← hf] at hid
      exact absurd hid (by simpa using h0)

/-- Database used by the C9 witness: one streaming thread. -/
def exDbC9 : DB :=
  { threads := [{ id := "t1", userId := "u1", status := .streaming,
                  streamId := some "s1", title := "", createdAt := 0, updatedAt := 0 }],
    messages := [], models := [], settings := [], usages := [], customers := [] }

/-- Assistant message saved by the C9 witness. -/
def exMsgC9 : ThreadMessage := { id := "a1", parts := [.text "answer"] }

/-- Concrete instance of C9: saving the assistant message resets the
streaming thread to `ready` with no stream id. -/
theorem claim_C9_witness :
    (∃ m ∈ (saveMessageAndResetThreadStatus exDbC9 "t1" "u1" exMsgC9 3).messages,
      m.threadId = "t1" ∧ m.userId = "u1" ∧ m.message = exMsgC9) ∧
    (∀ t ∈ (saveMessageAndResetThreadStatus exDbC9 "t1" "u1" exMsgC9 3).threads,
      t.id = "t1" → t.status = .ready ∧ t.streamId = none) :=
  claim_C9 exDbC9 "t1" "u1" exMsgC9 3

/-- Capability flags of `convertUIMessagesToModelMessages`; both default to
`false`, matching the source's default options object. -/
structure ConvertOptions where
  supportsImages : Bool := false
  supportsDocuments : Bool := false
  deriving DecidableEq, Repr

/-- The default options object
`{supportsImages: false, supportsDocuments: false}`. -/
def defaultConvertOptions : ConvertOptions := {}

/-- `String.prototype.startsWith` on the character lists of the two
strings: `pre` is a prefix of `s`.  (The byte-based core primitive is not
kernel-executable, so the model uses the character-list equivalent.) -/
def startsWithStr (s pre : String) : Bool := pre.data.isPrefixOf s.data

/-- The part filter of `convertUIMessagesToModelMessages`: a `file` part is
dropped when it is a pdf/plain-text document and documents are unsupported,
or an image and images are unsupported; every other part is kept. -/
def keepPart (options : ConvertOptions) (part : MessagePart) : Bool :=
  match part with
  | .file mediaType _ =>
    if (startsWithStr mediaType "application/pdf" || startsWithStr mediaType "text/plain")
        && !options.supportsDocuments then
      false
    else if startsWithStr mediaType "image/" && !options.supportsImages then
      false
    else
      true
  | _ => true

/-- `convertUIMessagesToModelMessages` of `service.ts` up to its external
tail: each message's `parts` array is filtered in place by `keepPart`; the
subsequent body-fetch of surviving document urls and the SDK call
`convertToModelMessages` are external I/O outside this model and do not
add or remove parts. -/
def convertUIMessagesToModelMessages (messages : List ThreadMessage)
    (options : ConvertOptions) : List ThreadMessage :=
  messages.map (fun message =>
    { message with parts := message.parts.filter (keepPart options) })

/-- C10: the conversion maps each message to itself with exactly the
`keepPart`-filtered parts, and a part is removed iff it is a `file` part
whose media type starts with `image/` while `supportsImages` is `false`, or
starts with `application/pdf` or `text/plain` while `supportsDocuments` is
`false`; both flags default to `false`.  All non-file parts and file parts
of other media types are kept. -/
theorem claim_C10 (messages : List ThreadMessage) (options : ConvertOptions) :
    List.Forall₂ (fun m m' => m'.id = m.id ∧ m'.parts = m.parts.filter (keepPart options))
      messages (convertUIMessagesToModelMessages messages options) ∧
    (∀ part, keepPart options part = false ↔
      (∃ mediaType url, part = .file mediaType url ∧
        ((startsWithStr mediaType "image/" = true ∧ options.supportsImages = false) ∨
         ((startsWithStr mediaType "application/pdf" = true ∨
           startsWithStr mediaType "text/plain" = true) ∧
          options.supportsDocuments = false)))) ∧
    defaultConvertOptions.supportsImages = false ∧
    defaultConvertOptions.supportsDocuments = false := by
  refine ⟨?_, ?_, rfl, rfl⟩
  · unfold convertUIMessagesToModelMessages
    induction messages with
    | nil => exact List.Forall₂.nil
    | cons a l ih => exact List.Forall₂.cons ⟨rfl, rfl⟩ ih
  · intro part
    cases part with
    | text t => simp [keepPart]
    | other t => simp [keepPart]
    | file mediaType url =>
      by_cases h1 : startsWithStr mediaType "application/pdf" = true <;>
      by_cases h2 : startsWithStr mediaType "text/plain" = true <;>
      by_cases h3 : startsWithStr mediaType "image/" = true <;>
      by_cases h4 : options.supportsImages = true <;>
      by_cases h5 : options.supportsDocuments = true <;>
        simp [keepPart, h1, h2, h3, h4, h5]

/-- Concrete instance of C10: under the default options an image file part
is removed. -/
theorem claim_C10_witness :
    keepPart defaultConvertOptions (.file "image/png" "http://x/a.png") = false :=
  ((claim_C10 [] defaultConvertOptions).2.1 (.file "image/png" "http://x/a.png")).mpr
    ⟨"image/png", "http://x/a.png", rfl, .inl ⟨by decide, rfl⟩⟩

end Spec2Proof
